import Mathlib

/-!
Shallow embedding of the analysis-request lifecycle and localization layer of
`src/App.tsx` (the single source file of the `analyzefile` repository).

The two external collaborators — the text extractor (`extractTextFromFile`
from `components/fileExtractor`) and the analysis client (`analyzeContent`
from `services/geminiService`) — are not part of `src/`; following the spec
they are treated as opaque functions that either return a value or fail with
a thrown value, and the lifecycle functions below are parametrised over them.
Calls to the collaborators are recorded in an explicit event trace so that
"the client is never invoked" and "the payload is exactly the input text"
become statements about the trace.
-/

namespace AnalyzeFile

/-- Languages of the UI: `type Language = 'en' | 'ar'`. -/
inductive Language
  | en
  | ar
deriving DecidableEq, Repr, Fintype

/-- Keys of the translation table: `TranslationKey = keyof typeof translations.en`. -/
inductive TranslationKey
  | appTitle
  | appDescription
  | language
  | textInputTab
  | fileUploadTab
  | textInputPlaceholder
  | fileUploadPrompt
  | fileUploadSupported
  | analyzeButton
  | analyzingButton
  | fileSelected
  | fileSize
  | changeFile
  | resultsTitle
  | initialStateTitle
  | initialStateDescription
  | summaryTitle
  | keywordsTitle
  | errorGeneric
  | errorNoText
  | errorNoFile
  | errorFileRead
  | errorNoTextExtracted
  | footerText
deriving DecidableEq, Repr, Fintype

/-- Translation table `translations` of `src/App.tsx`, both language blocks,
with the source strings verbatim. -/
def translations : Language → TranslationKey → String
  | .en, .appTitle => "AI Content Analyzer"
  | .en, .appDescription => "Instantly summarize articles, papers, or any text to grasp key insights."
  | .en, .language => "العربية"
  | .en, .textInputTab => "Enter Text"
  | .en, .fileUploadTab => "Upload File"
  | .en, .textInputPlaceholder => "Paste your article, report, or any text here..."
  | .en, .fileUploadPrompt => "Click to browse or drag & drop a file"
  | .en, .fileUploadSupported => "Supports .txt, .md, .pdf, .pptx"
  | .en, .analyzeButton => "Analyze Content"
  | .en, .analyzingButton => "Analyzing..."
  | .en, .fileSelected => "File Selected"
  | .en, .fileSize => "KB"
  | .en, .changeFile => "Choose a different file"
  | .en, .resultsTitle => "Analysis Results"
  | .en, .initialStateTitle => "Awaiting Analysis"
  | .en, .initialStateDescription => "Your summary and keywords will appear here once the analysis is complete."
  | .en, .summaryTitle => "Summary"
  | .en, .keywordsTitle => "Keywords"
  | .en, .errorGeneric => "An error occurred during analysis. Please try again."
  | .en, .errorNoText => "Please enter some text to analyze."
  | .en, .errorNoFile => "Please select a file to analyze."
  | .en, .errorFileRead => "Failed to read or parse the file. Please ensure it\x27s not corrupted."
  | .en, .errorNoTextExtracted => "Could not extract any text from the file. It might be empty or image-based."
  | .en, .footerText => "Powered by Google Gemini. Built with React & Tailwind CSS."
  | .ar, .appTitle => "محلل المحتوى بالذكاء الاصطناعي"
  | .ar, .appDescription => "لخص المقالات والأبحاث وأي نص على الفور لفهم الأفكار الرئيسية."
  | .ar, .language => "English"
  | .ar, .textInputTab => "إدخال النص"
  | .ar, .fileUploadTab => "رفع ملف"
  | .ar, .textInputPlaceholder => "الصق مقالك أو تقريرك أو أي نص هنا..."
  | .ar, .fileUploadPrompt => "انقر للتصفح أو اسحب وأفلت ملفًا"
  | .ar, .fileUploadSupported => "يدعم ملفات .txt, .md, .pdf, .pptx"
  | .ar, .analyzeButton => "تحليل المحتوى"
  | .ar, .analyzingButton => "جاري التحليل..."
  | .ar, .fileSelected => "الملف المحدد"
  | .ar, .fileSize => "كيلوبايت"
  | .ar, .changeFile => "اختيار ملف مختلف"
  | .ar, .resultsTitle => "نتائج التحليل"
  | .ar, .initialStateTitle => "في انتظار التحليل"
  | .ar, .initialStateDescription => "سيظهر ملخصك وكلماتك الرئيسية هنا بمجرد اكتمال التحليل."
  | .ar, .summaryTitle => "الملخص"
  | .ar, .keywordsTitle => "الكلمات الرئيسية"
  | .ar, .errorGeneric => "حدث خطأ أثناء التحليل. يرجى المحاولة مرة أخرى."
  | .ar, .errorNoText => "الرجاء إدخال بعض النص لتحليله."
  | .ar, .errorNoFile => "الرجاء اختيار ملف لتحليله."
  | .ar, .errorFileRead => "فشل في قراءة الملف أو تحليله. يرجى التأكد من أنه غير تالف."
  | .ar, .errorNoTextExtracted => "تعذر استخلاص أي نص من الملف. قد يكون فارغًا أو يحتوي على صور فقط."
  | .ar, .footerText => "مدعوم بواسطة Google Gemini. تم إنشاؤه باستخدام React و Tailwind CSS."

/-- Lookup function `t` of the `App` component:
`translations[language][key] || translations['en'][key]`.
JavaScript `||` takes the right operand exactly when the left one is falsy,
which for a string means the empty string. -/
def tApp (language : Language) (key : TranslationKey) : String :=
  if translations language key = "" then translations Language.en key
  else translations language key

/-- Whitespace predicate of JavaScript string trimming: the ECMAScript
WhiteSpace code points (TAB, VT, FF, SP, NBSP, ZWNBSP and the Unicode
space-separator category) together with the LineTerminator code points
(LF, CR, LS, PS). -/
def isJsWhitespace (c : Char) : Bool :=
  c.toNat == 0x09 || c.toNat == 0x0a || c.toNat == 0x0b || c.toNat == 0x0c ||
  c.toNat == 0x0d || c.toNat == 0x20 || c.toNat == 0xa0 || c.toNat == 0x1680 ||
  (Nat.ble 0x2000 c.toNat && Nat.ble c.toNat 0x200a) ||
  c.toNat == 0x2028 || c.toNat == 0x2029 || c.toNat == 0x202f ||
  c.toNat == 0x205f || c.toNat == 0x3000 || c.toNat == 0xfeff

/-- JavaScript `String.prototype.trim`: removes the whitespace characters
from both ends of the string. Implemented structurally on the character
list so that concrete inputs evaluate. -/
def jsTrim (s : String) : String :=
  String.mk (((s.data.dropWhile isJsWhitespace).reverse.dropWhile isJsWhitespace).reverse)

/-- Document-level attributes written by the language effect:
`document.documentElement.lang` and `document.documentElement.dir`. -/
structure DocumentState where
  lang : String
  dir : String
deriving DecidableEq, Repr

/-- String written into `document.documentElement.lang` for each language. -/
def langCode : Language → String
  | .en => "en"
  | .ar => "ar"

/-- Body of the `useEffect` in `App`: sets the document language code and the
direction, `rtl` for Arabic and `ltr` otherwise. -/
def applyLanguageEffect (language : Language) (_doc : DocumentState) : DocumentState :=
  { lang := langCode language
    dir := if language = Language.ar then "rtl" else "ltr" }

/-- Root state of the `App` component: the active language together with the
document attributes the effect keeps in sync with it. -/
structure AppRoot where
  language : Language
  doc : DocumentState
deriving DecidableEq, Repr

/-- Effect of calling `setLanguage(newLang)`: the language state changes and the
`useEffect` re-runs, rewriting the document attributes. -/
def setLanguage (newLang : Language) (root : AppRoot) : AppRoot :=
  { language := newLang, doc := applyLanguageEffect newLang root.doc }

/-- Values thrown inside the lifecycle, distinguished exactly as the code
distinguishes them: an `Error` instance carrying a `.message`, a
`FileProcessingError` (the classified extractor error, which extends `Error`),
or any non-`Error` thrown value. -/
inductive Thrown
  | errorObj (msg : String)
  | fileProcessingError (msg : String)
  | nonError
deriving DecidableEq, Repr

/-- Test `err instanceof FileProcessingError`. -/
def Thrown.isFileProcessing : Thrown → Bool
  | .fileProcessingError _ => true
  | _ => false

/-- Message carried by a thrown value: `.message` of an `Error` instance;
a non-`Error` value carries none. -/
def Thrown.message : Thrown → Option String
  | .errorObj m => some m
  | .fileProcessingError m => some m
  | .nonError => none

/-- Stand-in for the DOM `File` object held in `selectedFile`. -/
structure FileBlob where
  name : String
deriving DecidableEq, Repr

/-- Structured output of the analysis client (`AnalysisResult` of `src/types`). -/
structure AnalysisResult where
  summary : String
  keywords : List String
deriving DecidableEq, Repr

/-- Input mode of the input section: `'text' | 'file'`. -/
inductive InputMode
  | text
  | file
deriving DecidableEq, Repr

/-- The `useState` pieces of `AppContent` that the lifecycle reads and writes. -/
structure AppState where
  inputMode : InputMode
  inputText : String
  selectedFile : Option FileBlob
  analysisResult : Option AnalysisResult
  isLoading : Bool
  error : Option String
deriving DecidableEq, Repr

/-- Observable invocations of the two external collaborators during one
lifecycle run. -/
inductive CallEvent
  | extractorCall (f : FileBlob)
  | analyzeCall (text : String)
deriving DecidableEq, Repr

/-- Body of the `try` block in the file branch of `getTextToAnalyze`:
await the extractor, then throw `errorNoTextExtracted` when the extracted
text trims to nothing, else return the extracted text. -/
def extractTryBody (extractor : FileBlob → Except Thrown String)
    (language : Language) (f : FileBlob) : Except Thrown String :=
  match extractor f with
  | .error e => .error e
  | .ok extractedText =>
      if jsTrim extractedText = "" then
        .error (Thrown.errorObj (tApp language TranslationKey.errorNoTextExtracted))
      else .ok extractedText

/-- Handler of the `catch` in `getTextToAnalyze`: a `FileProcessingError` is
replaced by a fresh `Error` with the localized `errorFileRead` message, every
other thrown value is rethrown unchanged. -/
def extractCatch (language : Language) (e : Thrown) : Thrown :=
  if e.isFileProcessing then Thrown.errorObj (tApp language TranslationKey.errorFileRead)
  else e

/-- Function `getTextToAnalyze` of `AppContent`, with the extractor passed in
and its invocations recorded in the returned trace. Text mode throws
`errorNoText` on blank input and otherwise returns the input text as is;
file mode throws `errorNoFile` without a selected file and otherwise runs the
extraction `try`/`catch`. -/
def getTextToAnalyze (extractor : FileBlob → Except Thrown String)
    (language : Language) (st : AppState) :
    Except Thrown String × List CallEvent :=
  match st.inputMode with
  | .text =>
      if jsTrim st.inputText = "" then
        (.error (Thrown.errorObj (tApp language TranslationKey.errorNoText)), [])
      else (.ok st.inputText, [])
  | .file =>
      match st.selectedFile with
      | none => (.error (Thrown.errorObj (tApp language TranslationKey.errorNoFile)), [])
      | some f =>
          (match extractTryBody extractor language f with
           | .error e => .error (extractCatch language e)
           | .ok s => .ok s,
           [CallEvent.extractorCall f])

/-- State mutations at the top of `handleAnalyze`: loading on, previous error
and previous result cleared. -/
def startState (st : AppState) : AppState :=
  { st with isLoading := true, error := none, analysisResult := none }

/-- Message handed to `setError` in the `catch` of `handleAnalyze`: the thrown
value's own message when it is an `Error` instance, the localized generic
message otherwise. -/
def surfacedMessage (language : Language) (e : Thrown) : String :=
  match e.message with
  | some m => m
  | none => tApp language TranslationKey.errorGeneric

/-- Body of the `try` block of `handleAnalyze`: resolve the text, then call the
analysis client on it, recording the call in the trace. -/
def analyzeTryBody (extractor : FileBlob → Except Thrown String)
    (analyze : String → Except Thrown AnalysisResult)
    (language : Language) (st : AppState) :
    Except Thrown AnalysisResult × List CallEvent :=
  match getTextToAnalyze extractor language st with
  | (.error e, ev) => (.error e, ev)
  | (.ok textToAnalyze, ev) =>
      (analyze textToAnalyze, ev ++ [CallEvent.analyzeCall textToAnalyze])

/-- Function `handleAnalyze` of `AppContent` over one settled invocation:
the start mutations, then the `try` body; on success the result is published,
on any thrown value the `catch` publishes the surfaced message; the `finally`
turns the loading flag off on both paths. Returns the settled state together
with the trace of collaborator calls. -/
def handleAnalyze (extractor : FileBlob → Except Thrown String)
    (analyze : String → Except Thrown AnalysisResult)
    (language : Language) (st : AppState) : AppState × List CallEvent :=
  let st1 := startState st
  match analyzeTryBody extractor analyze language st with
  | (.ok result, ev) =>
      ({ st1 with analysisResult := some result, isLoading := false }, ev)
  | (.error e, ev) =>
      ({ st1 with error := some (surfacedMessage language e), isLoading := false }, ev)

/-- Sample file for concrete evaluations. -/
def sampleFile : FileBlob := { name := "a.txt" }

/-- Text-mode state whose input is whitespace only. -/
def stTextBlank : AppState :=
  { inputMode := InputMode.text, inputText := "   ", selectedFile := none
    analysisResult := none, isLoading := false, error := none }

/-- Text-mode state with non-blank input that carries leading and trailing
whitespace. -/
def stTextHello : AppState :=
  { inputMode := InputMode.text, inputText := "  hello  ", selectedFile := none
    analysisResult := none, isLoading := false, error := none }

/-- File-mode state with no file selected. -/
def stFileNone : AppState :=
  { inputMode := InputMode.file, inputText := "", selectedFile := none
    analysisResult := none, isLoading := false, error := none }

/-- File-mode state with a file selected. -/
def stFileSel : AppState :=
  { inputMode := InputMode.file, inputText := "", selectedFile := some sampleFile
    analysisResult := none, isLoading := false, error := none }

/-- Extractor that succeeds with a fixed non-blank text. -/
def okExtractor : FileBlob → Except Thrown String := fun _ => .ok "extracted"

/-- Analysis client that succeeds with a fixed result. -/
def okAnalyze : String → Except Thrown AnalysisResult :=
  fun _ => .ok { summary := "s", keywords := ["k"] }

/-- Extractor that fails with a classified file-processing error whose own
message text differs from every localized string. -/
def fpExtractor : FileBlob → Except Thrown String :=
  fun _ => .error (Thrown.fileProcessingError "boom")

/-- Extractor that succeeds but yields whitespace only. -/
def blankExtractor : FileBlob → Except Thrown String := fun _ => .ok "  "

/-- Analysis client that fails with a thrown non-`Error` value. -/
def failAnalyze : String → Except Thrown AnalysisResult :=
  fun _ => .error Thrown.nonError

/-- C1: for every settled invocation of `handleAnalyze`, the published result
and the published error are never simultaneously non-null: on success the
`AnalysisResult` is populated and the error is null, and on any failure the
error is populated and the `AnalysisResult` is null. -/
theorem handleAnalyze_result_error_exclusive
    (extractor : FileBlob → Except Thrown String)
    (analyze : String → Except Thrown AnalysisResult)
    (language : Language) (st : AppState) :
    ((handleAnalyze extractor analyze language st).1.analysisResult.isSome = true ∧
      (handleAnalyze extractor analyze language st).1.error = none) ∨
    ((handleAnalyze extractor analyze language st).1.analysisResult = none ∧
      (handleAnalyze extractor analyze language st).1.error.isSome = true) := by
  unfold handleAnalyze
  rcases hr : analyzeTryBody extractor analyze language st with ⟨r, ev⟩
  cases r <;> simp [startState]

/-- C2: for every invocation of `handleAnalyze`, the loading flag is set true
by the start mutations and is false once the invocation settles, for every
behaviour of the extractor and of the analysis client. -/
theorem handleAnalyze_loading_lifecycle
    (extractor : FileBlob → Except Thrown String)
    (analyze : String → Except Thrown AnalysisResult)
    (language : Language) (st : AppState) :
    (startState st).isLoading = true ∧
    (handleAnalyze extractor analyze language st).1.isLoading = false := by
  refine ⟨rfl, ?_⟩
  unfold handleAnalyze
  rcases hr : analyzeTryBody extractor analyze language st with ⟨r, ev⟩
  cases r <;> simp

/-- C3: every thrown value that reaches the top of the lifecycle is published
as its own message text, and as the localized generic fallback when it
carries no message. -/
theorem handleAnalyze_surfaced_error
    (extractor : FileBlob → Except Thrown String)
    (analyze : String → Except Thrown AnalysisResult)
    (language : Language) (st : AppState) (e : Thrown)
    (h : (analyzeTryBody extractor analyze language st).1 = Except.error e) :
    (handleAnalyze extractor analyze language st).1.error
      = some (surfacedMessage language e) := by
  unfold handleAnalyze
  rcases hr : analyzeTryBody extractor analyze language st with ⟨r, ev⟩
  rw [hr] at h
  cases r with
  | ok v => exact absurd h (by simp)
  | error e2 =>
      simp at h
      subst h
      simp

/-- Witness for C3 at a concrete input: a client that throws a non-`Error`
value makes the published error equal the generic fallback message. -/
theorem handleAnalyze_surfaced_error_witness :
    (analyzeTryBody okExtractor failAnalyze Language.en stTextHello).1
      = Except.error Thrown.nonError ∧
    (handleAnalyze okExtractor failAnalyze Language.en stTextHello).1.error
      = some (surfacedMessage Language.en Thrown.nonError) :=
  ⟨rfl,
   handleAnalyze_surfaced_error okExtractor failAnalyze Language.en stTextHello
     Thrown.nonError rfl⟩

/-- C4: in text mode with blank or whitespace-only input, the lifecycle fails
with the localized no-text message and the analysis client is never invoked. -/
theorem handleAnalyze_blank_text
    (extractor : FileBlob → Except Thrown String)
    (analyze : String → Except Thrown AnalysisResult)
    (language : Language) (st : AppState)
    (hmode : st.inputMode = InputMode.text)
    (hblank : jsTrim st.inputText = "") :
    (handleAnalyze extractor analyze language st).1.error
      = some (tApp language TranslationKey.errorNoText) ∧
    ∀ s, CallEvent.analyzeCall s ∉ (handleAnalyze extractor analyze language st).2 := by
  have hg : getTextToAnalyze extractor language st
      = (.error (Thrown.errorObj (tApp language TranslationKey.errorNoText)), []) := by
    unfold getTextToAnalyze
    rw [hmode]
    simp [hblank]
  have ha : analyzeTryBody extractor analyze language st
      = (.error (Thrown.errorObj (tApp language TranslationKey.errorNoText)), []) := by
    unfold analyzeTryBody
    rw [hg]
  constructor
  · simp [handleAnalyze, ha, surfacedMessage, Thrown.message]
  · intro s
    simp [handleAnalyze, ha]

/-- Witness for C4 at a concrete whitespace-only input. -/
theorem handleAnalyze_blank_text_witness :
    (handleAnalyze okExtractor okAnalyze Language.en stTextBlank).1.error
      = some (tApp Language.en TranslationKey.errorNoText) ∧
    CallEvent.analyzeCall "x" ∉ (handleAnalyze okExtractor okAnalyze Language.en stTextBlank).2 :=
  ⟨(handleAnalyze_blank_text okExtractor okAnalyze Language.en stTextBlank rfl rfl).1,
   (handleAnalyze_blank_text okExtractor okAnalyze Language.en stTextBlank rfl rfl).2 "x"⟩

/-- C5: in file mode with no file selected, the lifecycle fails with the
localized no-file message and the extractor is never invoked. -/
theorem handleAnalyze_no_file
    (extractor : FileBlob → Except Thrown String)
    (analyze : String → Except Thrown AnalysisResult)
    (language : Language) (st : AppState)
    (hmode : st.inputMode = InputMode.file)
    (hsel : st.selectedFile = none) :
    (handleAnalyze extractor analyze language st).1.error
      = some (tApp language TranslationKey.errorNoFile) ∧
    ∀ f, CallEvent.extractorCall f ∉ (handleAnalyze extractor analyze language st).2 := by
  have hg : getTextToAnalyze extractor language st
      = (.error (Thrown.errorObj (tApp language TranslationKey.errorNoFile)), []) := by
    unfold getTextToAnalyze
    rw [hmode, hsel]
  have ha : analyzeTryBody extractor analyze language st
      = (.error (Thrown.errorObj (tApp language TranslationKey.errorNoFile)), []) := by
    unfold analyzeTryBody
    rw [hg]
  constructor
  · simp [handleAnalyze, ha, surfacedMessage, Thrown.message]
  · intro f
    simp [handleAnalyze, ha]

/-- Witness for C5 at a concrete file-mode state without a file. -/
theorem handleAnalyze_no_file_witness :
    (handleAnalyze okExtractor okAnalyze Language.ar stFileNone).1.error
      = some (tApp Language.ar TranslationKey.errorNoFile) ∧
    CallEvent.extractorCall sampleFile ∉
      (handleAnalyze okExtractor okAnalyze Language.ar stFileNone).2 :=
  ⟨(handleAnalyze_no_file okExtractor okAnalyze Language.ar stFileNone rfl rfl).1,
   (handleAnalyze_no_file okExtractor okAnalyze Language.ar stFileNone rfl rfl).2 sampleFile⟩

/-- C6: when the extractor fails, a classified file-processing error is
remapped so that the surfaced message is the localized file-read string
whatever the original message was, while every other extractor failure
propagates unchanged out of `getTextToAnalyze`. -/
theorem extractor_failure_surfaced
    (extractor : FileBlob → Except Thrown String)
    (analyze : String → Except Thrown AnalysisResult)
    (language : Language) (st : AppState) (f : FileBlob) (e : Thrown)
    (hmode : st.inputMode = InputMode.file)
    (hsel : st.selectedFile = some f)
    (hext : extractor f = Except.error e) :
    (getTextToAnalyze extractor language st).1 = Except.error (extractCatch language e) ∧
    (handleAnalyze extractor analyze language st).1.error
      = some (if e.isFileProcessing then tApp language TranslationKey.errorFileRead
              else surfacedMessage language e) := by
  have hg : getTextToAnalyze extractor language st
      = (.error (extractCatch language e), [CallEvent.extractorCall f]) := by
    unfold getTextToAnalyze extractTryBody
    rw [hmode, hsel]
    simp [hext]
  have ha : analyzeTryBody extractor analyze language st
      = (.error (extractCatch language e), [CallEvent.extractorCall f]) := by
    unfold analyzeTryBody
    rw [hg]
  refine ⟨by rw [hg], ?_⟩
  have hpub : (handleAnalyze extractor analyze language st).1.error
      = some (surfacedMessage language (extractCatch language e)) := by
    simp [handleAnalyze, ha]
  rw [hpub]
  cases e <;>
    simp [extractCatch, surfacedMessage, Thrown.isFileProcessing, Thrown.message]

/-- Witness for C6: a file-processing error whose own message is "boom"
surfaces as the localized file-read string. -/
theorem extractor_failure_surfaced_witness :
    (getTextToAnalyze fpExtractor Language.en stFileSel).1
      = Except.error (extractCatch Language.en (Thrown.fileProcessingError "boom")) ∧
    (handleAnalyze fpExtractor okAnalyze Language.en stFileSel).1.error
      = some (if (Thrown.fileProcessingError "boom").isFileProcessing then
                tApp Language.en TranslationKey.errorFileRead
              else surfacedMessage Language.en (Thrown.fileProcessingError "boom")) :=
  extractor_failure_surfaced fpExtractor okAnalyze Language.en stFileSel sampleFile
    (Thrown.fileProcessingError "boom") rfl rfl rfl

/-- C7: when extraction succeeds but yields whitespace only, the lifecycle
fails with the localized no-text-extracted message and the analysis client is
never invoked. -/
theorem blank_extraction_no_analysis
    (extractor : FileBlob → Except Thrown String)
    (analyze : String → Except Thrown AnalysisResult)
    (language : Language) (st : AppState) (f : FileBlob) (s : String)
    (hmode : st.inputMode = InputMode.file)
    (hsel : st.selectedFile = some f)
    (hext : extractor f = Except.ok s)
    (hblank : jsTrim s = "") :
    (handleAnalyze extractor analyze language st).1.error
      = some (tApp language TranslationKey.errorNoTextExtracted) ∧
    ∀ u, CallEvent.analyzeCall u ∉ (handleAnalyze extractor analyze language st).2 := by
  have hg : getTextToAnalyze extractor language st
      = (.error (Thrown.errorObj (tApp language TranslationKey.errorNoTextExtracted)),
         [CallEvent.extractorCall f]) := by
    unfold getTextToAnalyze extractTryBody
    rw [hmode, hsel]
    simp [hext, hblank, extractCatch, Thrown.isFileProcessing]
  have ha : analyzeTryBody extractor analyze language st
      = (.error (Thrown.errorObj (tApp language TranslationKey.errorNoTextExtracted)),
         [CallEvent.extractorCall f]) := by
    unfold analyzeTryBody
    rw [hg]
  constructor
  · simp [handleAnalyze, ha, surfacedMessage, Thrown.message]
  · intro u
    simp [handleAnalyze, ha]

/-- Witness for C7: an extractor returning two spaces leads to the localized
no-text-extracted error and no analysis call. -/
theorem blank_extraction_no_analysis_witness :
    (handleAnalyze blankExtractor okAnalyze Language.en stFileSel).1.error
      = some (tApp Language.en TranslationKey.errorNoTextExtracted) ∧
    CallEvent.analyzeCall "  " ∉
      (handleAnalyze blankExtractor okAnalyze Language.en stFileSel).2 :=
  ⟨(blank_extraction_no_analysis blankExtractor okAnalyze Language.en stFileSel
      sampleFile "  " rfl rfl rfl rfl).1,
   (blank_extraction_no_analysis blankExtractor okAnalyze Language.en stFileSel
      sampleFile "  " rfl rfl rfl rfl).2 "  "⟩

/-- C8: for every key and active language, `t` returns the active language's
string when that language's entry for the key is truthy (non-empty), and the
English string for the key otherwise. -/
theorem t_lookup_fallback (language : Language) (key : TranslationKey) :
    (translations language key ≠ "" → tApp language key = translations language key) ∧
    (translations language key = "" → tApp language key = translations Language.en key) := by
  constructor <;> intro h <;> simp [tApp, h]

/-- Witness for C8 at a concrete key: the Arabic entry for the app title is
truthy and is what `t` returns. -/
theorem t_lookup_fallback_witness :
    translations Language.ar TranslationKey.appTitle ≠ "" ∧
    tApp Language.ar TranslationKey.appTitle = translations Language.ar TranslationKey.appTitle :=
  ⟨by decide, (t_lookup_fallback Language.ar TranslationKey.appTitle).1 (by decide)⟩

/-- C9: after `setLanguage`, the document language attribute holds the new
language's code, the direction attribute is `rtl` exactly for Arabic and
`ltr` otherwise, and every subsequent `t` lookup reads the new language's
table. -/
theorem setLanguage_updates_document (newLang : Language) (root : AppRoot) :
    (setLanguage newLang root).doc.lang = langCode newLang ∧
    (setLanguage newLang root).doc.dir
      = (if newLang = Language.ar then "rtl" else "ltr") ∧
    ∀ key, tApp (setLanguage newLang root).language key = translations newLang key := by
  refine ⟨rfl, rfl, ?_⟩
  show ∀ key, tApp newLang key = translations newLang key
  cases newLang <;> decide

/-- C10: in text mode with non-blank input, the analysis client is called
exactly once with the original, untrimmed input text. -/
theorem text_payload_untrimmed
    (extractor : FileBlob → Except Thrown String)
    (analyze : String → Except Thrown AnalysisResult)
    (language : Language) (st : AppState)
    (hmode : st.inputMode = InputMode.text)
    (hnb : jsTrim st.inputText ≠ "") :
    (handleAnalyze extractor analyze language st).2
      = [CallEvent.analyzeCall st.inputText] := by
  have hg : getTextToAnalyze extractor language st = (.ok st.inputText, []) := by
    unfold getTextToAnalyze
    rw [hmode]
    simp [hnb]
  have ha : analyzeTryBody extractor analyze language st
      = (analyze st.inputText, [CallEvent.analyzeCall st.inputText]) := by
    unfold analyzeTryBody
    rw [hg]
    simp
  cases h2 : analyze st.inputText <;>
    simp [handleAnalyze, ha, h2]

/-- Witness for C10: the state whose input is two-space-padded hello leads to
an analysis call carrying exactly that padded text. -/
theorem text_payload_untrimmed_witness :
    (handleAnalyze okExtractor okAnalyze Language.en stTextHello).2
      = [CallEvent.analyzeCall "  hello  "] :=
  text_payload_untrimmed okExtractor okAnalyze Language.en stTextHello rfl (by decide)

end AnalyzeFile
